import Mathlib

/-!
# pythonic_core: typed rows over PostgreSQL and SQLite

A shallow embedding of `src/pythonic_core.cpp`: the two `fetch_all` methods
(`PostgresConnection::fetch_all`, `SQLiteConnection::fetch_all`), their parameter
encoders and their row decoders.

* Python objects that cross the boundary are the closed type `Value`.
* A C++ or Python exception is the `Except.error` branch; its class is an `Error`.
* The native client libraries (libpq, sqlite3) are data: a prepared SQLite statement is
  the list of outcomes of its successive `sqlite3_step` calls, a `PGresult` is its status,
  its dimensions and its cell accessor.
* Library behaviour the program relies on but that is not fixed by the program text
  (`std::stod`, the ISO parsers of the Python runtime outside the two shapes the program
  tests for) is the parameter `Runtime`.
-/

namespace PythonicCore

/-! ## Values, errors -/

/-- An IEEE-754 binary64 number, identified by its bit pattern. The program only moves
doubles around; it performs no arithmetic on them. -/
structure Double where
  bits : Nat
  deriving DecidableEq, Repr

/-- Fields of a Python `datetime.date`. -/
structure Date where
  year : Nat
  month : Nat
  day : Nat
  deriving DecidableEq, Repr

/-- Fields of a Python `datetime.datetime`; `utcoffset` is the offset of an aware value in
microseconds, `none` for a naive one. -/
structure Timestamp where
  year : Nat
  month : Nat
  day : Nat
  hour : Nat
  minute : Nat
  second : Nat
  microsecond : Nat
  utcoffset : Option Int
  deriving DecidableEq, Repr

/-- Fields of a Python `datetime.timedelta`. -/
structure Duration where
  days : Int
  seconds : Int
  microseconds : Int
  deriving DecidableEq, Repr

/-- The Python objects exchanged with the caller: `None`, `bool`, `int`, `float`, `str`,
`datetime.date`, `datetime.datetime`, `datetime.timedelta`. -/
inductive Value where
  | null
  | boolean (b : Bool)
  | integer (v : Int)
  | float (d : Double)
  | text (s : String)
  | date (d : Date)
  | timestamp (t : Timestamp)
  | duration (d : Duration)
  deriving DecidableEq, Repr

/-- Exception classes that can leave `fetch_all`. -/
inductive Error where
  /-- `std::runtime_error` thrown by the program itself, with its message. -/
  | runtime_error (msg : String)
  /-- `pybind11::cast_error`: a `cast<T>()` that does not apply to the object. -/
  | cast_error
  /-- `std::invalid_argument` (from `std::stoi` / `std::stod`). -/
  | invalid_argument
  /-- `std::out_of_range` (from `std::stoi` / `std::stod`). -/
  | out_of_range
  /-- Python `ValueError`. -/
  | ValueError
  /-- Python `AttributeError`. -/
  | AttributeError
  deriving DecidableEq, Repr

deriving instance DecidableEq for Except

/-- Library behaviour left open by the program text. -/
structure Runtime where
  /-- `std::stod` on the text of a float column. -/
  stod : String → Except Error Double
  /-- `datetime.date.fromisoformat` on a string that is not of the form `YYYY-MM-DD`. -/
  date_fromisoformat_other : String → Except Error Date
  /-- `datetime.datetime.fromisoformat` on a string that is not a `YYYY-MM-DD HH:MM:SS`
  with valid fields. -/
  datetime_fromisoformat_other : String → Except Error Timestamp

/-- A runtime that accepts nothing beyond the two canonical shapes. -/
def Runtime.strict : Runtime where
  stod := fun _ => .error .invalid_argument
  date_fromisoformat_other := fun _ => .error .ValueError
  datetime_fromisoformat_other := fun _ => .error .ValueError

/-! ## C strings -/

/-- The characters a `const char *` denotes: those before the first NUL. This is what
`std::string(const char *)`, `py::str(const char *)` and a length argument of `-1` read. -/
def c_str (s : String) : String :=
  String.mk (s.data.takeWhile (fun c => c != Char.ofNat 0))

/-! ## The two regular expressions -/

/-- One position of a fixed-length pattern: `\d` or a literal character. -/
inductive Atom where
  | digit
  | lit (c : Char)
  deriving DecidableEq, Repr

/-- Whether a character is matched by an atom. -/
def Atom.accepts : Atom → Char → Bool
  | .digit, c => c.isDigit
  | .lit a, c => c == a

/-- `std::regex_match` for a pattern that is a plain sequence of atoms: the whole input
is consumed, one character per atom. -/
def regex_match : List Char → List Atom → Bool
  | [], [] => true
  | c :: cs, a :: as => a.accepts c && regex_match cs as
  | _, _ => false

/-- The pattern `\d{4}-\d{2}-\d{2}`. -/
def ymd_pattern : List Atom :=
  [.digit, .digit, .digit, .digit, .lit '-', .digit, .digit, .lit '-', .digit, .digit]

/-- The pattern `\d{2}:\d{2}:\d{2}`. -/
def hms_pattern : List Atom :=
  [.digit, .digit, .lit ':', .digit, .digit, .lit ':', .digit, .digit]

/-- `date_regex`, `^(\d{4}-\d{2}-\d{2})$`. -/
def date_regex : List Atom := ymd_pattern

/-- `datetime_regex`, `^(\d{4}-\d{2}-\d{2} \d{2}:\d{2}:\d{2})$`. -/
def datetime_regex : List Atom := ymd_pattern ++ [.lit ' '] ++ hms_pattern

/-! ## The Python `datetime` module -/

/-- Value of a run of decimal digits. -/
def digitsVal (cs : List Char) : Nat :=
  cs.foldl (fun acc c => 10 * acc + (c.toNat - 48)) 0

/-- Gregorian leap year. -/
def is_leap (y : Nat) : Bool :=
  y % 4 == 0 && (y % 100 != 0 || y % 400 == 0)

/-- Number of days of month `m` of year `y`. -/
def days_in_month (y m : Nat) : Nat :=
  if m == 2 then (if is_leap y then 29 else 28)
  else if m == 4 || m == 6 || m == 9 || m == 11 then 30
  else 31

/-- The range check of the `date` constructor: year in 1..9999, month in 1..12, day in
1..days of that month. -/
def valid_date (y m d : Nat) : Bool :=
  decide (1 ≤ y) && decide (y ≤ 9999) && decide (1 ≤ m) && decide (m ≤ 12) &&
    decide (1 ≤ d) && decide (d ≤ days_in_month y m)

/-- The range check of the time fields of the `datetime` constructor. -/
def valid_time (h mi s : Nat) : Bool :=
  decide (h < 24) && decide (mi < 60) && decide (s < 60)

/-- Year, month and day read off a string of the form `YYYY-MM-DD`. -/
def ymd_fields (cs : List Char) : Nat × Nat × Nat :=
  (digitsVal (cs.take 4), digitsVal ((cs.drop 5).take 2), digitsVal ((cs.drop 8).take 2))

/-- Hour, minute and second read off a string of the form `HH:MM:SS`. -/
def hms_fields (cs : List Char) : Nat × Nat × Nat :=
  (digitsVal (cs.take 2), digitsVal ((cs.drop 3).take 2), digitsVal ((cs.drop 6).take 2))

/-- `datetime.date.fromisoformat`. On a string `YYYY-MM-DD` the result is
`date(YYYY, MM, DD)`, a `ValueError` when the fields are out of range; this holds in
every CPython release that has the method. Other strings are left to the runtime. -/
def date_fromisoformat (rt : Runtime) (s : String) : Except Error Date :=
  if regex_match s.data ymd_pattern then
    let (y, m, d) := ymd_fields s.data
    if valid_date y m d then .ok ⟨y, m, d⟩ else .error .ValueError
  else rt.date_fromisoformat_other s

/-- `datetime.datetime.fromisoformat`. On a string `YYYY-MM-DD HH:MM:SS` whose fields
are in range the result is the naive `datetime` with those fields. Everything else is
left to the runtime. -/
def datetime_fromisoformat (rt : Runtime) (s : String) : Except Error Timestamp :=
  if regex_match s.data datetime_regex then
    let (y, m, d) := ymd_fields s.data
    let (h, mi, sec) := hms_fields (s.data.drop 11)
    if valid_date y m d && valid_time h mi sec then .ok ⟨y, m, d, h, mi, sec, 0, none⟩
    else rt.datetime_fromisoformat_other s
  else rt.datetime_fromisoformat_other s

/-- The attribute lookup `datetime.timedelta.fromisoformat` followed by the call.
`timedelta` defines no `fromisoformat`, so the lookup raises `AttributeError` before
the argument is looked at. -/
def timedelta_fromisoformat (_s : String) : Except Error Duration :=
  .error .AttributeError

/-! ## pybind11 views of a Python object -/

/-- A Python `dict` keyed by strings, in insertion order. -/
abbrev Dict := List (String × Value)

/-- The assignment `row_dict[key] = v`: an existing key keeps its place and gets the new
value, a new key goes to the end. -/
def Dict.set : Dict → String → Value → Dict
  | [], key, v => [(key, v)]
  | (k, x) :: rest, key, v =>
    if k = key then (k, v) :: rest else (k, x) :: Dict.set rest key v

/-- The test `item.is_none()`. -/
def is_none : Value → Bool
  | .null => true
  | _ => false

/-- The test `py::isinstance<py::int_>(item)`, that is `PyLong_Check`: true of an `int`
and of a `bool`, which is a subclass of `int`. -/
def isinstance_int : Value → Bool
  | .integer _ => true
  | .boolean _ => true
  | _ => false

/-- The test `py::isinstance<py::str>(item)`. -/
def isinstance_str : Value → Bool
  | .text _ => true
  | _ => false

/-- The test `py::isinstance<py::float_>(item)`. -/
def isinstance_float : Value → Bool
  | .float _ => true
  | _ => false

/-- Whether an integer is representable in the C type `int` (32 bits). -/
def fits_int (v : Int) : Bool :=
  decide (-2147483648 ≤ v) && decide (v ≤ 2147483647)

/-- The conversion `item.cast<int>()`: an `int` inside the range of the C type `int` is
itself, `True` and `False` are 1 and 0, everything else does not convert. -/
def cast_int : Value → Except Error Int
  | .integer v => if fits_int v then .ok v else .error .cast_error
  | .boolean b => .ok (if b then 1 else 0)
  | _ => .error .cast_error

/-- The conversion `item.cast<std::string>()`: only a `str` converts. -/
def cast_string : Value → Except Error String
  | .text s => .ok s
  | _ => .error .cast_error

/-- The conversion `item.cast<double>()` of a `float`. -/
def cast_double : Value → Except Error Double
  | .float d => .ok d
  | _ => .error .cast_error

/-! ## `std::stoi` -/

/-- The characters `isspace` accepts in the C locale. -/
def isspace (c : Char) : Bool :=
  c == ' ' || (decide (9 ≤ c.toNat) && decide (c.toNat ≤ 13))

/-- The function `std::stoi(str)` in base 10: leading white space is skipped, an optional
sign is read, then the longest run of digits; what follows is ignored. No digit at all is
`std::invalid_argument`, a value outside the C type `int` is `std::out_of_range`. -/
def stoi (s : String) : Except Error Int :=
  let cs := s.data.dropWhile isspace
  let neg : Bool := cs.head? == some '-'
  let ds := if cs.head? == some '-' || cs.head? == some '+' then cs.drop 1 else cs
  let digits := ds.takeWhile Char.isDigit
  if digits.isEmpty then .error .invalid_argument
  else
    let n : Int := digitsVal digits
    let v : Int := if neg then -n else n
    if fits_int v then .ok v else .error .out_of_range

/-! ## SQLite -/

/-- Result code `SQLITE_ROW`. -/
def SQLITE_ROW : Nat := 100

/-- Result code `SQLITE_DONE`. -/
def SQLITE_DONE : Nat := 101

/-- Result code `SQLITE_ERROR`. -/
def SQLITE_ERROR : Nat := 1

/-- The value in one column of the current row, by storage class (`sqlite3_column_type`):
a 64-bit signed integer, a double, a text, NULL, or a blob together with the text
`sqlite3_column_text` renders it as. Texts are the bytes the column accessor points at. -/
inductive sqlite3_value where
  | integer (v : Int)
  | float (d : Double)
  | text (s : String)
  | null
  | blob (rendered : String)
  deriving DecidableEq, Repr

/-- What one call of `sqlite3_step` reports: its result code and, when that is
`SQLITE_ROW`, the columns (name, value) of the row it made current. -/
structure Step where
  rc : Nat
  columns : List (String × sqlite3_value)
  deriving DecidableEq, Repr

/-- A call `sqlite3_bind_*(stmt, idx, ...)`. -/
inductive Bind where
  | null (idx : Nat)
  | int (idx : Nat) (v : Int)
  | text (idx : Nat) (s : String)
  | double (idx : Nat) (d : Double)
  deriving DecidableEq, Repr

/-- A prepared statement: the outcomes of its successive `sqlite3_step` calls, as a
function of the bindings made before the first step. -/
structure sqlite3_stmt where
  step : List Bind → List Step

/-- An open database: `sqlite3_prepare_v2` either yields a statement or fails with the
text `sqlite3_errmsg` then returns. -/
structure sqlite3 where
  prepare_v2 : String → Except String sqlite3_stmt

/-- The accessor `sqlite3_column_int` on an integer column: the low 32 bits of the stored
64-bit value, read as a signed `int`. -/
def sqlite3_column_int (v : Int) : Int :=
  (v + 2147483648) % 4294967296 - 2147483648

namespace SQLiteConnection

/-- One iteration of the parameter loop of `fetch_all`, for `py_params[i]`. -/
def bind_param (i : Nat) (item : Value) : Except Error Bind :=
  if is_none item then .ok (.null (i + 1))
  else if isinstance_int item then (cast_int item).map (fun v => .int (i + 1) v)
  else if isinstance_str item then (cast_string item).map (fun s => .text (i + 1) (c_str s))
  else if isinstance_float item then (cast_double item).map (fun d => .double (i + 1) d)
  else .error (.runtime_error "Unsupported parameter type")

/-- The parameter loop of `fetch_all`, from index `i` on; the result is the sequence of
bind calls made. -/
def bind_params : Nat → List Value → Except Error (List Bind)
  | _, [] => .ok []
  | i, item :: rest =>
    match bind_param i item with
    | .error e => .error e
    | .ok b =>
      match bind_params (i + 1) rest with
      | .error e => .error e
      | .ok bs => .ok (b :: bs)

/-- The `switch (sqlite3_column_type(stmt, i))` of `fetch_all`: the Python object stored
under the column's name. -/
def decode_column (rt : Runtime) : sqlite3_value → Except Error Value
  | .integer v => .ok (.integer (sqlite3_column_int v))
  | .float d => .ok (.float d)
  | .text s =>
    let value := c_str s
    if regex_match value.data date_regex then
      (date_fromisoformat rt value).map Value.date
    else if regex_match value.data datetime_regex then
      (datetime_fromisoformat rt value).map Value.timestamp
    else .ok (.text value)
  | .null => .ok .null
  | .blob rendered => .ok (.text (c_str rendered))

/-- The column loop of `fetch_all` on one row, filling `row_dict`. -/
def decode_row (rt : Runtime) : List (String × sqlite3_value) → Dict → Except Error Dict
  | [], row_dict => .ok row_dict
  | (col_name, v) :: rest, row_dict =>
    match decode_column rt v with
    | .error e => .error e
    | .ok x => decode_row rt rest (row_dict.set col_name x)

/-- The loop `while (sqlite3_step(stmt) == SQLITE_ROW)` of `fetch_all`, appending to
`result_list`. Any other result code ends the loop; a statement with no outcome left
reports no row. -/
def step_loop (rt : Runtime) : List Step → List Dict → Except Error (List Dict)
  | [], result_list => .ok result_list
  | st :: rest, result_list =>
    if st.rc = SQLITE_ROW then
      match decode_row rt st.columns [] with
      | .error e => .error e
      | .ok row_dict => step_loop rt rest (result_list ++ [row_dict])
    else .ok result_list

/-- The method `SQLiteConnection::fetch_all`. -/
def fetch_all (rt : Runtime) (conn_ : sqlite3) (query : String) (py_params : List Value) :
    Except Error (List Dict) :=
  match conn_.prepare_v2 query with
  | .error errmsg => .error (.runtime_error ("Failed to prepare statement: " ++ errmsg))
  | .ok stmt =>
    match bind_params 0 py_params with
    | .error e => .error e
    | .ok binds => step_loop rt (stmt.step binds) []

end SQLiteConnection

/-! ## PostgreSQL -/

/-- The result statuses of libpq (`ExecStatusType`). -/
inductive ExecStatusType where
  | PGRES_EMPTY_QUERY
  | PGRES_COMMAND_OK
  | PGRES_TUPLES_OK
  | PGRES_BAD_RESPONSE
  | PGRES_NONFATAL_ERROR
  | PGRES_FATAL_ERROR
  deriving DecidableEq, Repr

/-- A `PGresult` as the program reads it: `PQresultStatus`, `PQntuples`, `PQnfields`,
`PQfname`, `PQftype`, the cells in text format (`none` for an SQL NULL), and the text
`PQerrorMessage(conn_)` returns once the result is in. -/
structure PGresult where
  status : ExecStatusType
  ntuples : Nat
  nfields : Nat
  fname : Nat → String
  ftype : Nat → Nat
  cell : Nat → Nat → Option String
  errorMessage : String

/-- An open connection: `PQexecParams(conn_, query, n_params, nullptr, params, ...)`,
where `params` is `none` for a null pointer and otherwise the array of parameter
values, a `none` entry being a null pointer, that is an SQL NULL. -/
structure PGconn where
  PQexecParams : String → Nat → Option (List (Option String)) → PGresult

/-- The accessor `PQgetvalue(res, i, j)`: the text of the cell, and the empty string for
an SQL NULL. -/
def PQgetvalue (res : PGresult) (i j : Nat) : String :=
  (res.cell i j).getD ""

namespace PostgresConnection

/-- The body of the parameter loop of `fetch_all`, over all of `py_params`: every entry
is `param_values[i].c_str()` with `param_values[i] = py_params[i].cast<std::string>()`. -/
def encode_params : List Value → Except Error (List (Option String))
  | [] => .ok []
  | item :: rest =>
    match cast_string item with
    | .error e => .error e
    | .ok s =>
      match encode_params rest with
      | .error e => .error e
      | .ok ps => .ok (some (c_str s) :: ps)

/-- The pointer `params` handed to `PQexecParams`: null when `py_params` is empty. -/
def make_params (py_params : List Value) : Except Error (Option (List (Option String))) :=
  if py_params.isEmpty then .ok none else (encode_params py_params).map some

/-- The `switch (type)` of `fetch_all` on the type oid of the column and the text of the
cell. -/
def decode_value (rt : Runtime) (type : Nat) (val : String) : Except Error Value :=
  if type = 23 then (stoi val).map Value.integer
  else if type = 700 ∨ type = 701 then (rt.stod val).map Value.float
  else if type = 16 then .ok (.boolean (decide (val = "t")))
  else if type = 1082 then (date_fromisoformat rt val).map Value.date
  else if type = 1114 ∨ type = 1184 then (datetime_fromisoformat rt val).map Value.timestamp
  else if type = 1186 then (timedelta_fromisoformat val).map Value.duration
  else .ok (.text val)

/-- What the column loop computes for the cell in row `i`, column `j`. -/
def decode_cell (rt : Runtime) (res : PGresult) (i j : Nat) : Except Error Value :=
  decode_value rt (res.ftype j) (PQgetvalue res i j)

/-- The column loop of `fetch_all` on row `i`, over the column indices `js`. -/
def decode_fields (rt : Runtime) (res : PGresult) (i : Nat) :
    List Nat → Dict → Except Error Dict
  | [], row_dict => .ok row_dict
  | j :: js, row_dict =>
    match decode_cell rt res i j with
    | .error e => .error e
    | .ok py_val => decode_fields rt res i js (row_dict.set (res.fname j) py_val)

/-- The `py::dict` built for row `i`. -/
def decode_tuple (rt : Runtime) (res : PGresult) (i : Nat) : Except Error Dict :=
  decode_fields rt res i (List.range res.nfields) []

/-- The row loop of `fetch_all`, over the row indices `is`, appending to `result_list`. -/
def decode_tuples (rt : Runtime) (res : PGresult) :
    List Nat → List Dict → Except Error (List Dict)
  | [], result_list => .ok result_list
  | i :: is, result_list =>
    match decode_tuple rt res i with
    | .error e => .error e
    | .ok row_dict => decode_tuples rt res is (result_list ++ [row_dict])

/-- The method `PostgresConnection::fetch_all`. -/
def fetch_all (rt : Runtime) (conn_ : PGconn) (query : String) (py_params : List Value) :
    Except Error (List Dict) :=
  match make_params py_params with
  | .error e => .error e
  | .ok params =>
    let res := conn_.PQexecParams query py_params.length params
    if res.status ≠ ExecStatusType.PGRES_TUPLES_OK then
      .error (.runtime_error ("Query failed: " ++ res.errorMessage))
    else decode_tuples rt res (List.range res.ntuples) []

end PostgresConnection

/-! ## Vocabulary of the statements -/

/-- The rows a statement yields: the columns of its step outcomes up to, and not
including, the first outcome whose result code is not `SQLITE_ROW`. -/
def rows_yielded (steps : List Step) : List (List (String × sqlite3_value)) :=
  (steps.takeWhile (fun st => decide (st.rc = SQLITE_ROW))).map Step.columns

/-- The variants the SQLite encoder has no branch for: `date`, `datetime`, `timedelta`. -/
def unsupported : Value → Bool
  | .date _ => true
  | .timestamp _ => true
  | .duration _ => true
  | _ => false

/-- The native binding a parameter of a supported variant gets at index `idx`. -/
def bound_as (idx : Nat) : Value → Bind → Prop
  | .null, b => b = .null idx
  | .integer v, b => b = .int idx v
  | .boolean x, b => b = .int idx (if x then 1 else 0)
  | .text s, b => b = .text idx (c_str s)
  | .float d, b => b = .double idx d
  | _, _ => False

/-! ## Sample databases -/

/-- A SQLite database on which every query prepares to a statement yielding the given
step outcomes, whatever is bound. -/
def sqlite_yielding (steps : List Step) : sqlite3 :=
  ⟨fun _ => .ok ⟨fun _ => steps⟩⟩

/-- Two rows of one text column `d`, the second `2024-13-45`, then `SQLITE_DONE`. -/
def steps_bad_date : List Step :=
  [⟨SQLITE_ROW, [("d", .text "2023-01-01")]⟩, ⟨SQLITE_ROW, [("d", .text "2024-13-45")]⟩,
    ⟨SQLITE_DONE, []⟩]

/-- One row of one text column `d` holding `2023-01-01`, then `SQLITE_DONE`. -/
def steps_one_date : List Step :=
  [⟨SQLITE_ROW, [("d", .text "2023-01-01")]⟩, ⟨SQLITE_DONE, []⟩]

/-- One row of one integer column `n` holding 1, then `SQLITE_ERROR`. -/
def steps_row_then_error : List Step :=
  [⟨SQLITE_ROW, [("n", .integer 1)]⟩, ⟨SQLITE_ERROR, []⟩]

/-- A PostgreSQL connection on which every query returns the given result. -/
def pg_returning (res : PGresult) : PGconn :=
  ⟨fun _ _ _ => res⟩

/-- A successful result of one row and one column of the given name and type oid. -/
def pg_single (name : String) (oid : Nat) (cell : Option String) : PGresult :=
  ⟨.PGRES_TUPLES_OK, 1, 1, fun _ => name, fun _ => oid, fun _ _ => cell, ""⟩

/-- The result of `SELECT 1 AS n, 'x' AS s`: one row, an `int4` column `n` and a `text`
column `s`. -/
def pg_select_1_x : PGresult :=
  ⟨.PGRES_TUPLES_OK, 1, 2, fun j => if j = 0 then "n" else "s",
    fun j => if j = 0 then 23 else 25, fun _ j => if j = 0 then some "1" else some "x", ""⟩

/-! ## Lemmas -/

theorem c_str_eq_self (s : String) (h : Char.ofNat 0 ∉ s.data) : c_str s = s := by
  have h1 : s.data.takeWhile (fun c => c != Char.ofNat 0) = s.data := by
    rw [List.takeWhile_eq_self_iff]
    intro x hx
    have : x ≠ Char.ofNat 0 := fun hc => h (hc ▸ hx)
    simpa using this
  unfold c_str
  rw [h1]

theorem regex_match_length (cs : List Char) (pat : List Atom)
    (h : regex_match cs pat = true) : cs.length = pat.length := by
  induction cs generalizing pat with
  | nil =>
    cases pat with
    | nil => rfl
    | cons a as => simp [regex_match] at h
  | cons c cs ih =>
    cases pat with
    | nil => simp [regex_match] at h
    | cons a as =>
      simp only [regex_match, Bool.and_eq_true] at h
      simp [ih as h.2]

theorem date_regex_excludes_datetime (cs : List Char)
    (h : regex_match cs datetime_regex = true) : regex_match cs date_regex = false := by
  cases hd : regex_match cs date_regex with
  | false => rfl
  | true =>
    have h1 := regex_match_length cs _ h
    have h2 := regex_match_length cs _ hd
    rw [h1] at h2
    revert h2
    decide

/-! ## C1: text cells of the SQLite decoder -/

/-- C1 (as stated, refuted): the text `2024-13-45` has the shape `YYYY-MM-DD`, yet the
cell does not decode to a Date with year 2024, month 13, day 45: decoding raises
`ValueError`. And a text that is `2024-03-15` followed by a NUL and `X` is not of the
shape, yet decodes to a Date instead of a Text, because the decoder reads the text as a
C string. -/
theorem sqlite_text_date_shape_not_always_date :
    regex_match "2024-13-45".data date_regex = true ∧
    SQLiteConnection.decode_column Runtime.strict (.text "2024-13-45") = .error .ValueError ∧
    SQLiteConnection.decode_column Runtime.strict (.text "2024-13-45")
      ≠ .ok (.date ⟨2024, 13, 45⟩) ∧
    regex_match ("2024-03-15".data ++ [Char.ofNat 0, 'X']) date_regex = false ∧
    SQLiteConnection.decode_column Runtime.strict
        (.text (String.mk ("2024-03-15".data ++ [Char.ofNat 0, 'X'])))
      = .ok (.date ⟨2024, 3, 15⟩) := by
  decide

/-- C1 (amended): for every text `s` without an embedded NUL, the SQLite decoder tests the
shape `YYYY-MM-DD` first: on a match the cell is the Date with those fields when they
form a calendar date, and decoding fails with `ValueError` when they do not. Otherwise
it tests the shape `YYYY-MM-DD HH:MM:SS`: on a match with fields in range the cell is
the Timestamp with those fields, and with fields out of range it is whatever the ISO
parser of the runtime makes of `s`, an error or a Timestamp. In every other case the
cell is `Text s`, unchanged. -/
theorem sqlite_text_decoding (rt : Runtime) (s : String) (hnul : Char.ofNat 0 ∉ s.data) :
    SQLiteConnection.decode_column rt (.text s) =
      if regex_match s.data date_regex then
        if valid_date (ymd_fields s.data).1 (ymd_fields s.data).2.1 (ymd_fields s.data).2.2 then
          .ok (.date ⟨(ymd_fields s.data).1, (ymd_fields s.data).2.1, (ymd_fields s.data).2.2⟩)
        else .error .ValueError
      else if regex_match s.data datetime_regex then
        if valid_date (ymd_fields s.data).1 (ymd_fields s.data).2.1 (ymd_fields s.data).2.2 &&
            valid_time (hms_fields (s.data.drop 11)).1 (hms_fields (s.data.drop 11)).2.1
              (hms_fields (s.data.drop 11)).2.2 then
          .ok (.timestamp ⟨(ymd_fields s.data).1, (ymd_fields s.data).2.1,
            (ymd_fields s.data).2.2, (hms_fields (s.data.drop 11)).1,
            (hms_fields (s.data.drop 11)).2.1, (hms_fields (s.data.drop 11)).2.2, 0, none⟩)
        else (rt.datetime_fromisoformat_other s).map Value.timestamp
      else .ok (.text s) := by
  unfold SQLiteConnection.decode_column
  simp only [c_str_eq_self s hnul]
  by_cases hd : regex_match s.data date_regex = true
  · have hd' : regex_match s.data ymd_pattern = true := hd
    simp only [hd, if_true, date_fromisoformat, hd']
    by_cases hv : valid_date (ymd_fields s.data).1 (ymd_fields s.data).2.1
        (ymd_fields s.data).2.2 = true
    · simp [hv, Except.map]
    · simp [hv, Except.map]
  · simp only [hd, Bool.false_eq_true, if_false]
    by_cases ht : regex_match s.data datetime_regex = true
    · simp only [ht, if_true, datetime_fromisoformat]
      by_cases hv : (valid_date (ymd_fields s.data).1 (ymd_fields s.data).2.1
          (ymd_fields s.data).2.2 &&
            valid_time (hms_fields (s.data.drop 11)).1 (hms_fields (s.data.drop 11)).2.1
              (hms_fields (s.data.drop 11)).2.2) = true
      · simp [hv, Except.map]
      · simp [hv, Except.map]
    · simp [ht]

/-- C1, instances: `2024-03-15` is a Date, `2024-03-15 10:30:00` a Timestamp,
`2024-03-15X` and `hello` are Text. -/
theorem sqlite_text_decoding_witness :
    Char.ofNat 0 ∉ "2024-03-15".data ∧
    SQLiteConnection.decode_column Runtime.strict (.text "2024-03-15")
      = .ok (.date ⟨2024, 3, 15⟩) ∧
    SQLiteConnection.decode_column Runtime.strict (.text "2024-03-15 10:30:00")
      = .ok (.timestamp ⟨2024, 3, 15, 10, 30, 0, 0, none⟩) ∧
    SQLiteConnection.decode_column Runtime.strict (.text "2024-03-15X")
      = .ok (.text "2024-03-15X") ∧
    SQLiteConnection.decode_column Runtime.strict (.text "hello") = .ok (.text "hello") := by
  refine ⟨by decide, ?_, ?_, ?_, ?_⟩
  · rw [sqlite_text_decoding Runtime.strict "2024-03-15" (by decide)]; decide
  · rw [sqlite_text_decoding Runtime.strict "2024-03-15 10:30:00" (by decide)]; decide
  · rw [sqlite_text_decoding Runtime.strict "2024-03-15X" (by decide)]; decide
  · rw [sqlite_text_decoding Runtime.strict "hello" (by decide)]; decide

/-! ## C6: the SQLite parameter encoder -/

theorem bind_param_unsupported (i : Nat) (p : Value) (h : unsupported p = true) :
    SQLiteConnection.bind_param i p = .error (.runtime_error "Unsupported parameter type") := by
  cases p <;> simp_all [unsupported, SQLiteConnection.bind_param, is_none, isinstance_int,
    isinstance_str, isinstance_float]

theorem bind_param_supported (i : Nat) (p : Value) (h : unsupported p = false)
    (hfit : ∀ v, p = Value.integer v → fits_int v = true) :
    ∃ b, SQLiteConnection.bind_param i p = .ok b ∧ bound_as (i + 1) p b := by
  cases p with
  | integer v =>
    have hv := hfit v rfl
    simp [SQLiteConnection.bind_param, is_none, isinstance_int, cast_int, hv, Except.map,
      bound_as]
  | null => simp [SQLiteConnection.bind_param, is_none, bound_as]
  | boolean b =>
    simp [SQLiteConnection.bind_param, is_none, isinstance_int, cast_int, Except.map, bound_as]
  | float d =>
    simp [SQLiteConnection.bind_param, is_none, isinstance_int, isinstance_str,
      isinstance_float, cast_double, Except.map, bound_as]
  | text s =>
    simp [SQLiteConnection.bind_param, is_none, isinstance_int, isinstance_str, cast_string,
      Except.map, bound_as]
  | date d => simp [unsupported] at h
  | timestamp t => simp [unsupported] at h
  | duration d => simp [unsupported] at h

theorem bind_param_error_unsupported (i : Nat) (p : Value)
    (h : SQLiteConnection.bind_param i p = .error (.runtime_error "Unsupported parameter type")) :
    unsupported p = true := by
  cases p with
  | integer v =>
    by_cases hv : fits_int v = true <;>
      simp [SQLiteConnection.bind_param, is_none, isinstance_int, cast_int, hv, Except.map] at h
  | null => simp [SQLiteConnection.bind_param, is_none] at h
  | boolean b =>
    simp [SQLiteConnection.bind_param, is_none, isinstance_int, cast_int, Except.map] at h
  | float d =>
    simp [SQLiteConnection.bind_param, is_none, isinstance_int, isinstance_str,
      isinstance_float, cast_double, Except.map] at h
  | text s =>
    simp [SQLiteConnection.bind_param, is_none, isinstance_int, isinstance_str, cast_string,
      Except.map] at h
  | date d => rfl
  | timestamp t => rfl
  | duration d => rfl

theorem bind_params_supported (ps : List Value) (i : Nat)
    (hfit : ∀ v, Value.integer v ∈ ps → fits_int v = true)
    (hs : ∀ p ∈ ps, unsupported p = false) :
    ∃ bs, SQLiteConnection.bind_params i ps = .ok bs ∧
      List.Forall₂ (fun (ip : Nat × Value) b => bound_as (ip.1 + 1) ip.2 b)
        (ps.enumFrom i) bs := by
  induction ps generalizing i with
  | nil => exact ⟨[], rfl, List.Forall₂.nil⟩
  | cons p rest ih =>
    obtain ⟨b, hb, hba⟩ := bind_param_supported i p (hs p (List.mem_cons_self _ _))
      (fun v hv => hfit v (hv ▸ List.mem_cons_self _ _))
    obtain ⟨bs, hbs, hall⟩ := ih (i + 1)
      (fun v hv => hfit v (List.mem_cons_of_mem _ hv))
      (fun q hq => hs q (List.mem_cons_of_mem _ hq))
    refine ⟨b :: bs, ?_, ?_⟩
    · simp [SQLiteConnection.bind_params, hb, hbs]
    · exact List.Forall₂.cons hba hall

theorem bind_params_unsupported (ps : List Value) (i : Nat)
    (hfit : ∀ v, Value.integer v ∈ ps → fits_int v = true)
    (hex : ∃ p ∈ ps, unsupported p = true) :
    SQLiteConnection.bind_params i ps
      = .error (.runtime_error "Unsupported parameter type") := by
  induction ps generalizing i with
  | nil => obtain ⟨p, hp, _⟩ := hex; cases hp
  | cons p rest ih =>
    by_cases hp : unsupported p = true
    · simp [SQLiteConnection.bind_params, bind_param_unsupported i p hp]
    · have hp' : unsupported p = false := by simpa using hp
      obtain ⟨b, hb, _⟩ := bind_param_supported i p hp'
        (fun v hv => hfit v (hv ▸ List.mem_cons_self _ _))
      have hrest : ∃ q ∈ rest, unsupported q = true := by
        obtain ⟨q, hq, hqu⟩ := hex
        rcases List.mem_cons.mp hq with rfl | hq'
        · exact absurd hqu hp
        · exact ⟨q, hq', hqu⟩
      have := ih (i + 1) (fun v hv => hfit v (List.mem_cons_of_mem _ hv)) hrest
      simp [SQLiteConnection.bind_params, hb, this]

theorem bind_params_error_unsupported (ps : List Value) (i : Nat)
    (h : SQLiteConnection.bind_params i ps
      = .error (.runtime_error "Unsupported parameter type")) :
    ∃ p ∈ ps, unsupported p = true := by
  induction ps generalizing i with
  | nil => simp [SQLiteConnection.bind_params] at h
  | cons p rest ih =>
    cases hb : SQLiteConnection.bind_param i p with
    | error e =>
      simp only [SQLiteConnection.bind_params, hb] at h
      have he : e = .runtime_error "Unsupported parameter type" := by
        injection h
      exact ⟨p, List.mem_cons_self _ _, bind_param_error_unsupported i p (he ▸ hb)⟩
    | ok b =>
      cases hr : SQLiteConnection.bind_params (i + 1) rest with
      | error e =>
        simp only [SQLiteConnection.bind_params, hb, hr] at h
        have he : e = .runtime_error "Unsupported parameter type" := by
          injection h
        obtain ⟨q, hq, hqu⟩ := ih (i + 1) (he ▸ hr)
        exact ⟨q, List.mem_cons_of_mem _ hq, hqu⟩
      | ok bs => simp [SQLiteConnection.bind_params, hb, hr] at h

/-- C6 (as stated, refuted): a Boolean parameter is not rejected, it is bound as the
integer 1; and an Integer parameter outside the 32-bit range is neither bound nor
reported as an unsupported type: the conversion to `int` fails first. -/
theorem sqlite_encoder_binds_boolean :
    SQLiteConnection.bind_params 0 [.boolean true] = .ok [.int 1 1] ∧
    unsupported (.boolean true) = false ∧
    SQLiteConnection.bind_params 0 [.integer 2147483648] = .error .cast_error := by
  decide

/-- C6 (amended): for every parameter sequence whose Integer parameters fit the 32-bit C
`int`, encoding fails with "Unsupported parameter type" if and only if some parameter is
a Date, a Timestamp or a Duration; when none is, encoding succeeds and the parameter at
position `i` is bound at index `i + 1`: Null as native null, Integer as native integer,
Boolean as the native integer 1 or 0, Text as native text, Float as native double. -/
theorem sqlite_encoder_spec (ps : List Value)
    (hfit : ∀ v, Value.integer v ∈ ps → fits_int v = true) :
    (SQLiteConnection.bind_params 0 ps = .error (.runtime_error "Unsupported parameter type")
      ↔ ∃ p ∈ ps, unsupported p = true) ∧
    ((∀ p ∈ ps, unsupported p = false) →
      ∃ bs, SQLiteConnection.bind_params 0 ps = .ok bs ∧
        List.Forall₂ (fun (ip : Nat × Value) b => bound_as (ip.1 + 1) ip.2 b) ps.enum bs) :=
  ⟨⟨bind_params_error_unsupported ps 0, bind_params_unsupported ps 0 hfit⟩,
    bind_params_supported ps 0 hfit⟩

/-- C6, instance: `[Null, 7, "a", Date]` is rejected as unsupported, and its Integer
fits. -/
theorem sqlite_encoder_spec_witness :
    (∀ v, Value.integer v ∈ [Value.null, .integer 7, .text "a", .date ⟨2024, 3, 15⟩] →
      fits_int v = true) ∧
    SQLiteConnection.bind_params 0 [Value.null, .integer 7, .text "a", .date ⟨2024, 3, 15⟩]
      = .error (.runtime_error "Unsupported parameter type") := by
  have hfit : ∀ v, Value.integer v ∈ [Value.null, .integer 7, .text "a", .date ⟨2024, 3, 15⟩] →
      fits_int v = true := by
    intro v hv
    simp at hv
    subst hv
    decide
  exact ⟨hfit, (sqlite_encoder_spec _ hfit).1.2 ⟨.date ⟨2024, 3, 15⟩, by simp, rfl⟩⟩

/-! ## The row loops -/

theorem sqlite_decode_row_error (rt : Runtime) (cols : List (String × sqlite3_value))
    (row_dict : Dict)
    (h : ∃ cv ∈ cols, ∃ e, SQLiteConnection.decode_column rt cv.2 = .error e) :
    ∃ e, SQLiteConnection.decode_row rt cols row_dict = .error e := by
  induction cols generalizing row_dict with
  | nil => obtain ⟨cv, hcv, _⟩ := h; cases hcv
  | cons c rest ih =>
    obtain ⟨name, v⟩ := c
    cases hc : SQLiteConnection.decode_column rt v with
    | error e => exact ⟨e, by simp [SQLiteConnection.decode_row, hc]⟩
    | ok x =>
      have hrest : ∃ cv ∈ rest, ∃ e, SQLiteConnection.decode_column rt cv.2 = .error e := by
        obtain ⟨cv, hcv, e, he⟩ := h
        rcases List.mem_cons.mp hcv with rfl | hcv'
        · simp [hc] at he
        · exact ⟨cv, hcv', e, he⟩
      obtain ⟨e, he⟩ := ih (Dict.set row_dict name x) hrest
      exact ⟨e, by simp [SQLiteConnection.decode_row, hc, he]⟩

theorem sqlite_step_loop_ok_iff (rt : Runtime) (steps : List Step) (acc out : List Dict) :
    SQLiteConnection.step_loop rt steps acc = .ok out ↔
      ∃ rows, out = acc ++ rows ∧
        List.Forall₂ (fun native row => SQLiteConnection.decode_row rt native [] = .ok row)
          (rows_yielded steps) rows := by
  induction steps generalizing acc with
  | nil =>
    simp [SQLiteConnection.step_loop, rows_yielded]
    exact eq_comm
  | cons st rest ih =>
    by_cases hrc : st.rc = SQLITE_ROW
    · have hy : rows_yielded (st :: rest) = st.columns :: rows_yielded rest := by
        simp [rows_yielded, List.takeWhile_cons, hrc]
      rw [hy]
      cases hd : SQLiteConnection.decode_row rt st.columns [] with
      | error e =>
        simp only [SQLiteConnection.step_loop, hrc, if_true, hd]
        constructor
        · intro h; cases h
        · rintro ⟨rows, _, hall⟩
          rw [List.forall₂_cons_left_iff] at hall
          obtain ⟨b, _, hb, _, _⟩ := hall
          rw [hd] at hb
          cases hb
      | ok row =>
        simp only [SQLiteConnection.step_loop, hrc, if_true, hd]
        rw [ih]
        constructor
        · rintro ⟨rows, rfl, hall⟩
          exact ⟨row :: rows, by simp, List.Forall₂.cons hd hall⟩
        · rintro ⟨rows, rfl, hall⟩
          rw [List.forall₂_cons_left_iff] at hall
          obtain ⟨b, u, hb, hu, rfl⟩ := hall
          rw [hd] at hb
          have hbr : row = b := by injection hb
          subst hbr
          exact ⟨u, by simp, hu⟩
    · have hy : rows_yielded (st :: rest) = [] := by
        simp [rows_yielded, List.takeWhile_cons, hrc]
      rw [hy]
      simp only [SQLiteConnection.step_loop, hrc, if_false]
      constructor
      · intro h
        have : acc = out := by injection h
        exact ⟨[], by simp [this], List.Forall₂.nil⟩
      · rintro ⟨rows, rfl, hall⟩
        rw [List.forall₂_nil_left_iff] at hall
        simp [hall]

theorem pg_decode_fields_error (rt : Runtime) (res : PGresult) (i : Nat) (js : List Nat)
    (row_dict : Dict)
    (h : ∃ j ∈ js, ∃ e, PostgresConnection.decode_cell rt res i j = .error e) :
    ∃ e, PostgresConnection.decode_fields rt res i js row_dict = .error e := by
  induction js generalizing row_dict with
  | nil => obtain ⟨j, hj, _⟩ := h; cases hj
  | cons j rest ih =>
    cases hc : PostgresConnection.decode_cell rt res i j with
    | error e => exact ⟨e, by simp [PostgresConnection.decode_fields, hc]⟩
    | ok x =>
      have hrest : ∃ k ∈ rest, ∃ e, PostgresConnection.decode_cell rt res i k = .error e := by
        obtain ⟨k, hk, e, he⟩ := h
        rcases List.mem_cons.mp hk with rfl | hk'
        · simp [hc] at he
        · exact ⟨k, hk', e, he⟩
      obtain ⟨e, he⟩ := ih (Dict.set row_dict (res.fname j) x) hrest
      exact ⟨e, by simp [PostgresConnection.decode_fields, hc, he]⟩

theorem pg_decode_tuples_ok_iff (rt : Runtime) (res : PGresult) (idx : List Nat)
    (acc out : List Dict) :
    PostgresConnection.decode_tuples rt res idx acc = .ok out ↔
      ∃ rows, out = acc ++ rows ∧
        List.Forall₂ (fun i row => PostgresConnection.decode_tuple rt res i = .ok row)
          idx rows := by
  induction idx generalizing acc with
  | nil =>
    simp [PostgresConnection.decode_tuples]
    exact eq_comm
  | cons i rest ih =>
    cases hd : PostgresConnection.decode_tuple rt res i with
    | error e =>
      simp only [PostgresConnection.decode_tuples, hd]
      constructor
      · intro h; cases h
      · rintro ⟨rows, _, hall⟩
        rw [List.forall₂_cons_left_iff] at hall
        obtain ⟨b, _, hb, _, _⟩ := hall
        rw [hd] at hb
        cases hb
    | ok row =>
      simp only [PostgresConnection.decode_tuples, hd]
      rw [ih]
      constructor
      · rintro ⟨rows, rfl, hall⟩
        exact ⟨row :: rows, by simp, List.Forall₂.cons hd hall⟩
      · rintro ⟨rows, rfl, hall⟩
        rw [List.forall₂_cons_left_iff] at hall
        obtain ⟨b, u, hb, hu, rfl⟩ := hall
        rw [hd] at hb
        have hbr : row = b := by injection hb
        subst hbr
        exact ⟨u, by simp, hu⟩

theorem sqlite_fetch_all_ok_iff (rt : Runtime) (conn_ : sqlite3) (query : String)
    (py_params : List Value) (stmt : sqlite3_stmt) (binds : List Bind)
    (hprep : conn_.prepare_v2 query = .ok stmt)
    (hbind : SQLiteConnection.bind_params 0 py_params = .ok binds) (rows : List Dict) :
    SQLiteConnection.fetch_all rt conn_ query py_params = .ok rows ↔
      List.Forall₂ (fun native row => SQLiteConnection.decode_row rt native [] = .ok row)
        (rows_yielded (stmt.step binds)) rows := by
  simp only [SQLiteConnection.fetch_all, hprep, hbind]
  rw [sqlite_step_loop_ok_iff]
  simp

theorem pg_fetch_all_ok_iff (rt : Runtime) (conn_ : PGconn) (query : String)
    (py_params : List Value) (params : Option (List (Option String))) (res : PGresult)
    (hparams : PostgresConnection.make_params py_params = .ok params)
    (hres : conn_.PQexecParams query py_params.length params = res)
    (hstatus : res.status = ExecStatusType.PGRES_TUPLES_OK) (rows : List Dict) :
    PostgresConnection.fetch_all rt conn_ query py_params = .ok rows ↔
      List.Forall₂ (fun i row => PostgresConnection.decode_tuple rt res i = .ok row)
        (List.range res.ntuples) rows := by
  simp only [PostgresConnection.fetch_all, hparams, hres, hstatus, ne_eq, not_true_eq_false,
    if_false]
  rw [pg_decode_tuples_ok_iff]
  simp

theorem forall₂_left_mem {α β : Type} {R : α → β → Prop} {l₁ : List α} {l₂ : List β}
    (h : List.Forall₂ R l₁ l₂) {a : α} (ha : a ∈ l₁) : ∃ b, R a b := by
  induction h with
  | nil => cases ha
  | cons hab _ ih =>
    rcases List.mem_cons.mp ha with rfl | ha'
    · exact ⟨_, hab⟩
    · exact ih ha'

/-! ## C9: a cell that fails to decode -/

/-- C9: on both backends, if some cell of some tuple the native driver yields fails to
decode, `fetch_all` as a whole ends in an error: no list of rows is returned, neither the
rows decoded before the failing cell nor a row with a substitute for it. -/
theorem fetch_all_fails_on_bad_cell (rt : Runtime) :
    (∀ (conn_ : sqlite3) (query : String) (py_params : List Value) (stmt : sqlite3_stmt)
        (binds : List Bind),
      conn_.prepare_v2 query = .ok stmt →
      SQLiteConnection.bind_params 0 py_params = .ok binds →
      (∃ row ∈ rows_yielded (stmt.step binds), ∃ cv ∈ row, ∃ e,
        SQLiteConnection.decode_column rt cv.2 = .error e) →
      ∃ e, SQLiteConnection.fetch_all rt conn_ query py_params = .error e) ∧
    (∀ (conn_ : PGconn) (query : String) (py_params : List Value)
        (params : Option (List (Option String))) (res : PGresult),
      PostgresConnection.make_params py_params = .ok params →
      conn_.PQexecParams query py_params.length params = res →
      (∃ i, i < res.ntuples ∧ ∃ j, j < res.nfields ∧ ∃ e,
        PostgresConnection.decode_cell rt res i j = .error e) →
      ∃ e, PostgresConnection.fetch_all rt conn_ query py_params = .error e) := by
  constructor
  · intro conn_ query py_params stmt binds hprep hbind ⟨row, hrow, hcell⟩
    cases hf : SQLiteConnection.fetch_all rt conn_ query py_params with
    | error e => exact ⟨e, rfl⟩
    | ok rows =>
      rw [sqlite_fetch_all_ok_iff rt conn_ query py_params stmt binds hprep hbind] at hf
      obtain ⟨r, hr⟩ := forall₂_left_mem hf hrow
      obtain ⟨e, he⟩ := sqlite_decode_row_error rt row [] hcell
      rw [he] at hr
      cases hr
  · intro conn_ query py_params params res hparams hres ⟨i, hi, j, hj, hcell⟩
    cases hf : PostgresConnection.fetch_all rt conn_ query py_params with
    | error e => exact ⟨e, rfl⟩
    | ok rows =>
      by_cases hstatus : res.status = ExecStatusType.PGRES_TUPLES_OK
      · rw [pg_fetch_all_ok_iff rt conn_ query py_params params res hparams hres hstatus] at hf
        obtain ⟨r, hr⟩ := forall₂_left_mem hf (List.mem_range.mpr hi)
        obtain ⟨e, he⟩ := pg_decode_fields_error rt res i (List.range res.nfields) []
          ⟨j, List.mem_range.mpr hj, hcell⟩
        unfold PostgresConnection.decode_tuple at hr
        rw [he] at hr
        cases hr
      · simp [PostgresConnection.fetch_all, hparams, hres, hstatus] at hf

/-- C9, instances: a SQLite statement whose second row holds the text `2024-13-45`, and
a PostgreSQL result whose `date` column holds `infinity`. -/
theorem fetch_all_fails_on_bad_cell_witness :
    (∃ e, SQLiteConnection.fetch_all Runtime.strict (sqlite_yielding steps_bad_date)
      "SELECT d FROM t" [] = .error e) ∧
    (∃ e, PostgresConnection.fetch_all Runtime.strict
      (pg_returning (pg_single "d" 1082 (some "infinity"))) "SELECT d FROM t" []
        = .error e) :=
  ⟨(fetch_all_fails_on_bad_cell Runtime.strict).1 (sqlite_yielding steps_bad_date)
      "SELECT d FROM t" [] ⟨fun _ => steps_bad_date⟩ [] rfl rfl
      ⟨[("d", .text "2024-13-45")], by decide,
        ("d", .text "2024-13-45"), by decide, .ValueError, by decide⟩,
    (fetch_all_fails_on_bad_cell Runtime.strict).2
      (pg_returning (pg_single "d" 1082 (some "infinity"))) "SELECT d FROM t" [] none
      (pg_single "d" 1082 (some "infinity")) rfl rfl
      ⟨0, by decide, 0, by decide, .ValueError, by decide⟩⟩

/-! ## C10: the shape of the result -/

/-- C10: on both backends `fetch_all` returns a list of rows exactly when every tuple
the native driver yields decodes, and the list is then the decodings of those tuples,
one per tuple and in the driver's order: it has as many rows as there are tuples and
its `k`-th row is the decoding of the `k`-th tuple. With no tuple the result is the
empty list, not an error. For SQLite the tuples are the rows stepped over before the
first result code other than `SQLITE_ROW`; for PostgreSQL they are the `PQntuples` rows
of a result of status `PGRES_TUPLES_OK`. -/
theorem fetch_all_result_shape (rt : Runtime) :
    (∀ (conn_ : sqlite3) (query : String) (py_params : List Value) (stmt : sqlite3_stmt)
        (binds : List Bind),
      conn_.prepare_v2 query = .ok stmt →
      SQLiteConnection.bind_params 0 py_params = .ok binds →
      (∀ rows, SQLiteConnection.fetch_all rt conn_ query py_params = .ok rows ↔
        List.Forall₂ (fun native row => SQLiteConnection.decode_row rt native [] = .ok row)
          (rows_yielded (stmt.step binds)) rows) ∧
      (∀ rows, SQLiteConnection.fetch_all rt conn_ query py_params = .ok rows →
        rows.length = (rows_yielded (stmt.step binds)).length ∧
        ∀ k (hk : k < rows.length) (hk' : k < (rows_yielded (stmt.step binds)).length),
          SQLiteConnection.decode_row rt ((rows_yielded (stmt.step binds)).get ⟨k, hk'⟩) []
            = .ok (rows.get ⟨k, hk⟩)) ∧
      (rows_yielded (stmt.step binds) = [] →
        SQLiteConnection.fetch_all rt conn_ query py_params = .ok [])) ∧
    (∀ (conn_ : PGconn) (query : String) (py_params : List Value)
        (params : Option (List (Option String))) (res : PGresult),
      PostgresConnection.make_params py_params = .ok params →
      conn_.PQexecParams query py_params.length params = res →
      res.status = ExecStatusType.PGRES_TUPLES_OK →
      (∀ rows, PostgresConnection.fetch_all rt conn_ query py_params = .ok rows ↔
        List.Forall₂ (fun i row => PostgresConnection.decode_tuple rt res i = .ok row)
          (List.range res.ntuples) rows) ∧
      (∀ rows, PostgresConnection.fetch_all rt conn_ query py_params = .ok rows →
        rows.length = res.ntuples ∧
        ∀ k (hk : k < rows.length),
          PostgresConnection.decode_tuple rt res k = .ok (rows.get ⟨k, hk⟩)) ∧
      (res.ntuples = 0 →
        PostgresConnection.fetch_all rt conn_ query py_params = .ok [])) := by
  constructor
  · intro conn_ query py_params stmt binds hprep hbind
    have hiff := sqlite_fetch_all_ok_iff rt conn_ query py_params stmt binds hprep hbind
    refine ⟨hiff, ?_, ?_⟩
    · intro rows hrows
      have hall := (hiff rows).mp hrows
      rw [List.forall₂_iff_get] at hall
      exact ⟨hall.1.symm, fun k hk hk' => hall.2 k hk' hk⟩
    · intro hnil
      rw [hiff, hnil]
      exact List.Forall₂.nil
  · intro conn_ query py_params params res hparams hres hstatus
    have hiff := pg_fetch_all_ok_iff rt conn_ query py_params params res hparams hres hstatus
    refine ⟨hiff, ?_, ?_⟩
    · intro rows hrows
      have hall := (hiff rows).mp hrows
      rw [List.forall₂_iff_get] at hall
      have hlen : rows.length = res.ntuples := by
        rw [← hall.1, List.length_range]
      refine ⟨hlen, fun k hk => ?_⟩
      have hk' : k < (List.range res.ntuples).length := by
        rw [List.length_range]; omega
      have := hall.2 k hk' hk
      simpa using this
    · intro hzero
      rw [hiff, hzero]
      exact List.Forall₂.nil

/-- C10, instances: the SQLite statement yielding the single row `d = 2023-01-01`
returns that row as a Date, and `SELECT 1 AS n, 'x' AS s` on PostgreSQL returns the
single row `n = 1, s = x`. -/
theorem fetch_all_result_shape_witness :
    SQLiteConnection.fetch_all Runtime.strict (sqlite_yielding steps_one_date)
      "SELECT d FROM t" [] = .ok [[("d", .date ⟨2023, 1, 1⟩)]] ∧
    PostgresConnection.fetch_all Runtime.strict (pg_returning pg_select_1_x)
      "SELECT 1 AS n, 'x' AS s" [] = .ok [[("n", .integer 1), ("s", .text "x")]] :=
  ⟨(((fetch_all_result_shape Runtime.strict).1 (sqlite_yielding steps_one_date)
      "SELECT d FROM t" [] ⟨fun _ => steps_one_date⟩ [] rfl rfl).1 _).mpr
      (List.Forall₂.cons (by decide) List.Forall₂.nil),
    (((fetch_all_result_shape Runtime.strict).2 (pg_returning pg_select_1_x)
      "SELECT 1 AS n, 'x' AS s" [] none pg_select_1_x rfl rfl rfl).1 _).mpr
      (List.Forall₂.cons (by decide) List.Forall₂.nil)⟩

/-! ## C8: decoded values as parameters -/

theorem sqlite3_column_int_fits (v : Int) : fits_int (sqlite3_column_int v) = true := by
  unfold fits_int sqlite3_column_int
  simp only [Bool.and_eq_true, decide_eq_true_eq]
  omega

theorem sqlite_decoded_integer_fits (rt : Runtime) (c : sqlite3_value) (n : Int)
    (h : SQLiteConnection.decode_column rt c = .ok (.integer n)) : fits_int n = true := by
  cases c with
  | integer v =>
    simp only [SQLiteConnection.decode_column] at h
    have hn : sqlite3_column_int v = n := by
      injection h with h1
      injection h1
    rw [← hn]
    exact sqlite3_column_int_fits v
  | float d => simp [SQLiteConnection.decode_column] at h
  | null => simp [SQLiteConnection.decode_column] at h
  | blob r => simp [SQLiteConnection.decode_column] at h
  | text s =>
    simp only [SQLiteConnection.decode_column] at h
    split at h
    · cases hd : date_fromisoformat rt (c_str s) <;> simp [hd, Except.map] at h
    · split at h
      · cases hd : datetime_fromisoformat rt (c_str s) <;> simp [hd, Except.map] at h
      · simp at h

theorem forall₂_right_mem {α β : Type} {R : α → β → Prop} {l₁ : List α} {l₂ : List β}
    (h : List.Forall₂ R l₁ l₂) {b : β} (hb : b ∈ l₂) : ∃ a, R a b := by
  induction h with
  | nil => cases hb
  | cons hab _ ih =>
    rcases List.mem_cons.mp hb with rfl | hb'
    · exact ⟨_, hab⟩
    · exact ih hb'

/-- C8 (as stated, refuted): the SQLite decoder turns the text `2024-03-15` into a Date,
and the SQLite encoder rejects that Date as a parameter; the PostgreSQL decoder turns
the `int4` text `1` into an Integer, and the PostgreSQL encoder rejects that Integer. -/
theorem decoded_value_rejected_as_parameter :
    SQLiteConnection.decode_column Runtime.strict (.text "2024-03-15")
      = .ok (.date ⟨2024, 3, 15⟩) ∧
    SQLiteConnection.bind_params 0 [.date ⟨2024, 3, 15⟩]
      = .error (.runtime_error "Unsupported parameter type") ∧
    PostgresConnection.decode_value Runtime.strict 23 "1" = .ok (.integer 1) ∧
    PostgresConnection.make_params [.integer 1] = .error .cast_error := by
  decide

/-- C8 (amended): take any sequence of values produced by the SQLite decoder. If none of
them is a Date or a Timestamp (they are Null, Integer, Float or Text), the SQLite encoder
accepts the sequence; if one of them is, the encoder rejects it with "Unsupported
parameter type". And every Text the PostgreSQL decoder produces is accepted by the
PostgreSQL encoder. -/
theorem decoded_values_as_parameters (rt : Runtime) (cells : List sqlite3_value)
    (vs : List Value)
    (hdec : List.Forall₂ (fun c v => SQLiteConnection.decode_column rt c = .ok v) cells vs) :
    ((∀ v ∈ vs, unsupported v = false) →
      ∃ bs, SQLiteConnection.bind_params 0 vs = .ok bs) ∧
    ((∃ v ∈ vs, unsupported v = true) →
      SQLiteConnection.bind_params 0 vs
        = .error (.runtime_error "Unsupported parameter type")) ∧
    (∀ (res : PGresult) (i j : Nat) (s : String),
      PostgresConnection.decode_cell rt res i j = .ok (.text s) →
      PostgresConnection.make_params [.text s] = .ok (some [some (c_str s)])) := by
  have hfit : ∀ n, Value.integer n ∈ vs → fits_int n = true := by
    intro n hn
    obtain ⟨c, hc⟩ := forall₂_right_mem hdec hn
    exact sqlite_decoded_integer_fits rt c n hc
  refine ⟨fun hs => ?_, fun hex => bind_params_unsupported vs 0 hfit hex, ?_⟩
  · obtain ⟨bs, hbs, _⟩ := bind_params_supported vs 0 hfit hs
    exact ⟨bs, hbs⟩
  · intro res i j s _
    rfl

/-- C8, instance: the decodings of an integer cell, a text cell and a NULL cell are
accepted together as SQLite parameters. -/
theorem decoded_values_as_parameters_witness :
    List.Forall₂ (fun c v => SQLiteConnection.decode_column Runtime.strict c = .ok v)
      [.integer 5, .text "hello", .null] [.integer 5, .text "hello", .null] ∧
    ∃ bs, SQLiteConnection.bind_params 0 [.integer 5, .text "hello", .null] = .ok bs :=
  have hdec : List.Forall₂
      (fun c v => SQLiteConnection.decode_column Runtime.strict c = .ok v)
      [.integer 5, .text "hello", .null] [.integer 5, .text "hello", .null] :=
    List.Forall₂.cons (by decide) (List.Forall₂.cons (by decide)
      (List.Forall₂.cons (by decide) List.Forall₂.nil))
  ⟨hdec, (decoded_values_as_parameters Runtime.strict _ _ hdec).1 (by decide)⟩

/-! ## C2, C3, C7: the PostgreSQL decoder and encoder at the inputs where they part from
the specification -/

/-- The branches of the type switch other than `interval`: `int4` cells go through
`std::stoi`, `float4` and `float8` cells through `std::stod`, a `bool` cell is true
exactly when its text is `t`, `date` and `timestamp` cells go through the ISO parsers,
and a cell of any other type is the Text of its raw text. -/
theorem pg_decode_value_dispatch (rt : Runtime) (val : String) :
    PostgresConnection.decode_value rt 23 val = (stoi val).map Value.integer ∧
    PostgresConnection.decode_value rt 700 val = (rt.stod val).map Value.float ∧
    PostgresConnection.decode_value rt 701 val = (rt.stod val).map Value.float ∧
    PostgresConnection.decode_value rt 16 val = .ok (.boolean (decide (val = "t"))) ∧
    PostgresConnection.decode_value rt 1082 val
      = (date_fromisoformat rt val).map Value.date ∧
    PostgresConnection.decode_value rt 1114 val
      = (datetime_fromisoformat rt val).map Value.timestamp ∧
    PostgresConnection.decode_value rt 1184 val
      = (datetime_fromisoformat rt val).map Value.timestamp ∧
    (∀ type : Nat, type ∉ [23, 700, 701, 16, 1082, 1114, 1184, 1186] →
      PostgresConnection.decode_value rt type val = .ok (.text val)) := by
  refine ⟨rfl, rfl, rfl, rfl, rfl, rfl, rfl, ?_⟩
  intro type htype
  simp only [List.mem_cons, List.mem_singleton, List.not_mem_nil, or_false, not_or] at htype
  obtain ⟨h1, h2, h3, h4, h5, h6, h7, h8⟩ := htype
  simp [PostgresConnection.decode_value, h1, h2, h3, h4, h5, h6, h7, h8]

/-- C2: a cell of an `interval` column (type oid 1186) never decodes to a Duration:
whatever its text, the decoder raises `AttributeError`, and a query returning one such
cell fails as a whole. -/
theorem pg_interval_cell_raises (rt : Runtime) :
    (∀ val : String,
      PostgresConnection.decode_value rt 1186 val = .error .AttributeError) ∧
    PostgresConnection.fetch_all rt (pg_returning (pg_single "span" 1186 (some "1 day")))
      "SELECT span FROM t" [] = .error .AttributeError := by
  constructor
  · intro val
    simp [PostgresConnection.decode_value, timedelta_fromisoformat, Except.map]
  · simp [PostgresConnection.fetch_all, PostgresConnection.make_params, pg_returning,
      pg_single, PostgresConnection.decode_tuples, PostgresConnection.decode_tuple,
      PostgresConnection.decode_fields, PostgresConnection.decode_cell,
      PostgresConnection.decode_value, timedelta_fromisoformat, Except.map, List.range,
      List.range.loop]

/-- C3: an SQL NULL in a `text` column (oid 25) decodes to `Text ""` and in a `bool`
column (oid 16) to `Boolean false`, not to Null; in an `int4` column (oid 23) the integer
parser is run on the empty string and raises `std::invalid_argument`. -/
theorem pg_null_cell_is_parsed (rt : Runtime) :
    PostgresConnection.fetch_all rt (pg_returning (pg_single "s" 25 none))
      "SELECT s FROM t" [] = .ok [[("s", .text "")]] ∧
    PostgresConnection.fetch_all rt (pg_returning (pg_single "b" 16 none))
      "SELECT b FROM t" [] = .ok [[("b", .boolean false)]] ∧
    PostgresConnection.fetch_all rt (pg_returning (pg_single "n" 23 none))
      "SELECT n FROM t" [] = .error .invalid_argument := by
  refine ⟨?_, ?_, ?_⟩ <;> rfl

/-- C7: a Null parameter is not passed on as a null entry of the parameter array: its
conversion to `std::string` raises `pybind11::cast_error`, so `fetch_all` fails before
the query is sent. -/
theorem pg_null_parameter_raises (rt : Runtime) (conn_ : PGconn) (query : String) :
    PostgresConnection.make_params [.null] = .error .cast_error ∧
    PostgresConnection.fetch_all rt conn_ query [.null] = .error .cast_error := by
  constructor <;> rfl

/-! ## C4, C5: the SQLite step loop and integer columns at the inputs where they part
from the specification -/

/-- C4: when `sqlite3_step` yields one row and then reports `SQLITE_ERROR`, `fetch_all`
does not fail: it returns the row decoded so far. -/
theorem sqlite_step_error_returns_rows (rt : Runtime) :
    SQLiteConnection.fetch_all rt (sqlite_yielding steps_row_then_error)
      "SELECT n FROM t" [] = .ok [[("n", .integer 1)]] := by
  rfl

/-- C5: the integer 2147483648 held in an integer column decodes to -2147483648, and
4294967297 decodes to 1: the value is cut to its low 32 bits without any error. -/
theorem sqlite_integer_cell_wraps (rt : Runtime) :
    SQLiteConnection.decode_column rt (.integer 2147483648) = .ok (.integer (-2147483648)) ∧
    SQLiteConnection.decode_column rt (.integer 4294967297) = .ok (.integer 1) := by
  constructor <;> rfl

end PythonicCore
